import Mathlib

/-!
Verification of the endpoint-tester core of `shapeshyft_lib`:
the JSON-Schema-driven sample generator (`generateSampleValue`), the
structural validator (`validateValue`), and the `useEndpointTester`
orchestration (`testEndpoint`, `validateInput`, `generateSampleInput`,
`clearResults`).

The embedding models JavaScript runtime values as the inductive `Js`
(with a distinct `undefined` for `undefined`).  JavaScript numbers are
modelled as rationals; the only number-specific runtime checks the code
performs are order comparisons and `Number.isInteger`, which rationals
capture exactly for the (integral) values exercised here.  String
rendering of numbers (`numToString`) agrees with JavaScript for integral
values; non-integral rendering is inherited from `Rat` and is never
relied upon by a theorem.  JavaScript objects are modelled as
insertion-ordered association lists with unique keys, matching
`Object.entries` iteration order.
-/

namespace Shapeshyft

/-- A JavaScript runtime value (`undefined` is a first-class value). -/
inductive Js where
  | undefined : Js
  | null : Js
  | bool : Bool → Js
  | num : ℚ → Js
  | str : String → Js
  | arr : List Js → Js
  | obj : List (String × Js) → Js

/-- JavaScript `typeof` (arrays and `null` report `"object"`). -/
def Js.typeof : Js → String
  | .undefined => "undefined"
  | .null => "object"
  | .bool _ => "boolean"
  | .num _ => "number"
  | .str _ => "string"
  | .arr _ => "object"
  | .obj _ => "object"

/-- The test `value === null || value === undefined`. -/
def Js.isNullish : Js → Bool
  | .null => true
  | .undefined => true
  | _ => false

/-- The test `value !== undefined` (the presence test the code applies to `schema.default`). -/
def Js.isDefined : Js → Bool
  | .undefined => false
  | _ => true

/-- JavaScript truthiness. -/
def Js.truthy : Js → Bool
  | .undefined => false
  | .null => false
  | .bool b => b
  | .num q => q ≠ 0
  | .str s => s ≠ ""
  | .arr _ => true
  | .obj _ => true

/-- Key membership, JavaScript `"key" in value`.  On an object it tests
own-key presence; on an array it is `false` for the (non-index,
non-`length`) keys used here; on a primitive or nullish receiver
JavaScript throws a `TypeError`, modelled as `.error ()` (the engine
supplies the message; see `testEndpoint`). -/
def Js.inOp : String → Js → Except Unit Bool
  | k, .obj fs => .ok (fs.lookup k).isSome
  | _, .arr _ => .ok false
  | _, _ => .error ()

/-- Property access `value[key]`.  On a nullish receiver JavaScript
throws a `TypeError`, modelled as `.error ()`; a primitive receiver is
boxed and yields `undefined` for the keys used here; an array has no
such named own key; an object looks the key up. -/
def Js.access : Js → String → Except Unit Js
  | .undefined, _ => .error ()
  | .null, _ => .error ()
  | .obj fs, k => .ok ((fs.lookup k).getD .undefined)
  | _, _ => .ok .undefined

/-- The `type` tag of a schema node; `other` covers an unrecognized or
absent `type` (the `default:` arm of the code's `switch`). -/
inductive SchemaType where
  | string | number | integer | boolean | array | object | other
deriving DecidableEq

/-- A `JsonSchema` node as consumed by the code: `type`, `enum`,
`default`, `minimum`/`maximum`, `minLength`/`maxLength`, `items`,
`properties`, `required`.  `default` is an arbitrary runtime value with
`Js.undefined` standing for an absent field, mirroring the code's
`schema.default !== undefined` presence test; the other optional fields
use `Option` with `none` for `undefined`. -/
inductive JsonSchema where
  | mk : SchemaType → Option (List String) → Js → Option ℚ → Option ℚ →
      Option Nat → Option Nat → Option JsonSchema →
      Option (List (String × JsonSchema)) → Option (List String) → JsonSchema

def JsonSchema.type : JsonSchema → SchemaType
  | .mk t _ _ _ _ _ _ _ _ _ => t

def JsonSchema.enum : JsonSchema → Option (List String)
  | .mk _ e _ _ _ _ _ _ _ _ => e

def JsonSchema.default : JsonSchema → Js
  | .mk _ _ d _ _ _ _ _ _ _ => d

def JsonSchema.minimum : JsonSchema → Option ℚ
  | .mk _ _ _ m _ _ _ _ _ _ => m

def JsonSchema.maximum : JsonSchema → Option ℚ
  | .mk _ _ _ _ m _ _ _ _ _ => m

def JsonSchema.minLength : JsonSchema → Option Nat
  | .mk _ _ _ _ _ m _ _ _ _ => m

def JsonSchema.maxLength : JsonSchema → Option Nat
  | .mk _ _ _ _ _ _ m _ _ _ => m

def JsonSchema.items : JsonSchema → Option JsonSchema
  | .mk _ _ _ _ _ _ _ i _ _ => i

def JsonSchema.properties : JsonSchema → Option (List (String × JsonSchema))
  | .mk _ _ _ _ _ _ _ _ p _ => p

def JsonSchema.required : JsonSchema → Option (List String)
  | .mk _ _ _ _ _ _ _ _ _ r => r

/-- Rendering of a number in an error message (JavaScript template
interpolation); exact for integral values. -/
def numToString (q : ℚ) : String :=
  if q.den = 1 then toString q.num else toString q

mutual

/-- Source `generateSampleValue(schema)`: synthesize a sample value for a schema
node.  Mirrors the source `switch` including its quirks: a *defined*
(possibly empty) `enum` short-circuits the string case, with `enum[0]`
being `undefined` for an empty sequence. -/
def generateSampleValue (schema : JsonSchema) : Js :=
  match schema with
  | .mk t en df mi _ma _miL _maL it pr _rq =>
    match t with
    | .string =>
      match en with
      | some [] => .undefined
      | some (e :: _) => .str e
      | none => if df.isDefined then df else .str "sample string"
    | .number | .integer =>
      if df.isDefined then df
      else
        match mi with
        | some m => .num m
        | none => .num 0
    | .boolean => if df.isDefined then df else .bool true
    | .array =>
      match it with
      | some s => .arr [generateSampleValue s]
      | none => .arr []
    | .object =>
      match pr with
      | some props => .obj (genProps props)
      | none => .obj []
    | .other => .null

/-- The `object` arm's loop over `Object.entries(schema.properties)`. -/
def genProps (props : List (String × JsonSchema)) : List (String × Js) :=
  match props with
  | [] => []
  | (k, s) :: rest => (k, generateSampleValue s) :: genProps rest

end

/-- The checks of the validator's `number`/`integer` arm for a numeric
value, in source push order: whole-number check (integer only), then
`minimum`, then `maximum`. -/
def numberErrors (isInt : Bool) (q : ℚ) (schema : JsonSchema) (path : String) :
    List String :=
  (if isInt ∧ q.den ≠ 1 then [path ++ ": expected integer, got float"] else []) ++
  (match schema.minimum with
   | some m =>
     if q < m then
       [path ++ ": value " ++ numToString q ++ " is less than minimum " ++ numToString m]
     else []
   | none => []) ++
  (match schema.maximum with
   | some m =>
     if q > m then
       [path ++ ": value " ++ numToString q ++ " exceeds maximum " ++ numToString m]
     else []
   | none => [])

/-- The checks of the validator's `string` arm for a string value, in
source push order: `minLength`, `maxLength`, `enum` membership. -/
def stringErrors (s : String) (schema : JsonSchema) (path : String) : List String :=
  (match schema.minLength with
   | some m =>
     if s.length < m then
       [path ++ ": string length " ++ toString s.length ++ " is less than minLength " ++
         toString m]
     else []
   | none => []) ++
  (match schema.maxLength with
   | some m =>
     if s.length > m then
       [path ++ ": string length " ++ toString s.length ++ " exceeds maxLength " ++
         toString m]
     else []
   | none => []) ++
  (match schema.enum with
   | some es =>
     if es.contains s then []
     else
       [path ++ ": value \"" ++ s ++ "\" is not in enum [" ++
         String.intercalate ", " es ++ "]"]
   | none => [])

/-- The validator's required-property scan: one error per `required`
entry that is not an own key of the object value, in declared order. -/
def requiredErrors (req : Option (List String)) (fields : List (String × Js))
    (path : String) : List String :=
  match req with
  | some reqs =>
    reqs.filterMap fun r =>
      if (fields.lookup r).isSome then none
      else some (path ++ ": missing required property \"" ++ r ++ "\"")
  | none => []

mutual

/-- Source `validateValue(value, schema, path)`: ordered list of path-qualified
error messages.  Mirrors the source: `null`/`undefined` short-circuit,
then a `switch` on `schema.type` whose `default:` arm performs no
checks. -/
def validateValue (value : Js) (schema : JsonSchema) (path : String) : List String :=
  if value.isNullish then []
  else
    match schema.type with
    | .string =>
      match value with
      | .str s => stringErrors s schema path
      | v => [path ++ ": expected string, got " ++ v.typeof]
    | .number =>
      match value with
      | .num q => numberErrors false q schema path
      | v => [path ++ ": expected number, got " ++ v.typeof]
    | .integer =>
      match value with
      | .num q => numberErrors true q schema path
      | v => [path ++ ": expected number, got " ++ v.typeof]
    | .boolean =>
      match value with
      | .bool _ => []
      | v => [path ++ ": expected boolean, got " ++ v.typeof]
    | .array =>
      match value with
      | .arr xs =>
        match schema.items with
        | some its => validateItems xs its path 0
        | none => []
      | v => [path ++ ": expected array, got " ++ v.typeof]
    | .object =>
      match value with
      | .obj fields =>
        match schema.properties with
        | some props =>
          requiredErrors schema.required fields path ++ validateProps fields props path
        | none => []
      | v => [path ++ ": expected object, got " ++ v.typeof]
    | .other => []

/-- The `array` arm's `value.forEach((item, index) => ...)`, with `i` the
index of the first element of `xs`. -/
def validateItems (xs : List Js) (its : JsonSchema) (path : String) (i : Nat) :
    List String :=
  match xs with
  | [] => []
  | x :: rest =>
    validateValue x its (path ++ "[" ++ toString i ++ "]") ++
      validateItems rest its path (i + 1)

/-- The `object` arm's loop over `Object.entries(obj)`: properties of the
value without a schema entry are silently ignored. -/
def validateProps (fields : List (String × Js)) (props : List (String × JsonSchema))
    (path : String) : List String :=
  match fields with
  | [] => []
  | (k, pv) :: rest =>
    (match props.lookup k with
     | some ps => validateValue pv ps (path ++ "." ++ k)
     | none => []) ++ validateProps rest props path

end

/-- Source `ValidationResult`: `valid` is derived as `errors.length === 0`. -/
structure ValidationResult where
  valid : Bool
  errors : List String

/-- Source `validateInput(input, schema)`: always valid when the schema is absent. -/
def validateInput (input : Js) (schema : Option JsonSchema) : ValidationResult :=
  match schema with
  | none => ⟨true, []⟩
  | some s =>
    let errors := validateValue input s "root"
    ⟨errors.length = 0, errors⟩

/-- Source `generateSampleInput(inputSchema)`: empty object when the schema is absent. -/
def generateSampleInput : Option JsonSchema → Js
  | none => .obj []
  | some s => generateSampleValue s

/-- The fields of an `Endpoint` the tester reads. -/
structure Endpoint where
  uuid : String
  endpoint_name : String
  http_method : String
  input_schema : Option JsonSchema

/-- A `TestResult` log entry.  `error` uses `Option String` with `none`
for `null`; `output` and the token fields are raw runtime values with
`Js.null` for `null`. -/
structure TestResult where
  id : String
  endpointId : String
  endpointName : String
  input : Js
  output : Js
  success : Bool
  error : Option String
  timestamp : Int
  latencyMs : Option Int
  tokensInput : Js
  tokensOutput : Js

/-- The hook's reactive state: the result log (most-recent-first), the
loading flag, and the standing error message. -/
structure TesterState where
  testResults : List TestResult
  isLoading : Bool
  error : Option String

/-- Outcome of `aiExecute.execute`: either a resolved
`{success, data?, error?}` response (`data = Js.undefined` when absent,
`error = none` when absent or `null`), or a thrown fault
(`some m` for an `Error` with message `m`, `none` for a non-`Error`
throw, which carries no message). -/
inductive ExecOutcome where
  | resolved (success : Bool) (data : Js) (error : Option String)
  | thrown (fault : Option String)

/-- The entry of `testEndpoint`: `setIsLoading(true); setError(null)`. -/
def testStart (st : TesterState) : TesterState :=
  { st with isLoading := true, error := none }

/-- Evaluation of a token-usage expression of the success result:
`response.success && response.data && 'usage' in response.data
  ? response.data.usage.<key> : null`.
The `&&` chain short-circuits to `null` on a false flag, a falsy
payload, or an absent `usage` key; the expression *throws* a
`TypeError` (`.error ()`) when `in` is applied to a truthy primitive
payload, or when the `usage` member is nullish so that `.<key>` is an
access on `null`/`undefined`. -/
def usageToken (success : Bool) (data : Js) (key : String) : Except Unit Js :=
  if success = false then .ok .null
  else if data.truthy = false then .ok .null
  else
    match Js.inOp "usage" data with
    | .error e => .error e
    | .ok false => .ok .null
    | .ok true =>
      match data.access "usage" with
      | .error e => .error e
      | .ok u => u.access key

/-- Source `testEndpoint(projectName, endpoint, sampleInput)`, with the ambient
effects made explicit: `st` is the hook state, `outcome` the behavior of
the execution collaborator on this call, `testId` the generated
identifier, `startTime` the entry clock reading and `now` the clock
reading after the collaborator settles.  `faultMsg` is the
engine-defined message of the `TypeError` raised if token extraction
throws on this call (an environment input, like the clock readings;
unused on non-throwing paths — a `TypeError` is an `Error`, so the
catch block reports its message).  Returns the final state, the
resolved `TestResult`, and whether the collaborator was invoked. -/
def testEndpoint (st : TesterState) (ep : Endpoint) (sampleInput : Js)
    (outcome : ExecOutcome) (testId : String) (startTime now : Int)
    (faultMsg : String) :
    TesterState × TestResult × Bool :=
  let st0 := testStart st
  let validation := validateInput sampleInput ep.input_schema
  if !validation.valid then
    let result : TestResult :=
      { id := testId, endpointId := ep.uuid, endpointName := ep.endpoint_name,
        input := sampleInput, output := .null, success := false,
        error := some ("Input validation failed: " ++
          String.intercalate ", " validation.errors),
        timestamp := now, latencyMs := none,
        tokensInput := .null, tokensOutput := .null }
    let st1 := { st0 with testResults := result :: st0.testResults }
    ({ st1 with isLoading := false }, result, false)
  else
    match outcome with
    | .resolved success data err =>
      match usageToken success data "tokens_input",
          usageToken success data "tokens_output" with
      | .ok ti, .ok tq =>
        let result : TestResult :=
          { id := testId, endpointId := ep.uuid, endpointName := ep.endpoint_name,
            input := sampleInput,
            output := if success then data else .null,
            success := success,
            error := err,
            timestamp := now, latencyMs := some (now - startTime),
            tokensInput := ti,
            tokensOutput := tq }
        let st1 := { st0 with testResults := result :: st0.testResults }
        ({ st1 with isLoading := false }, result, true)
      | _, _ =>
        let stE := { st0 with error := some faultMsg }
        let result : TestResult :=
          { id := testId, endpointId := ep.uuid, endpointName := ep.endpoint_name,
            input := sampleInput, output := .null, success := false,
            error := some faultMsg,
            timestamp := now, latencyMs := some (now - startTime),
            tokensInput := .null, tokensOutput := .null }
        let st1 := { stE with testResults := result :: stE.testResults }
        ({ st1 with isLoading := false }, result, true)
    | .thrown fault =>
      let errorMessage := fault.getD "Test failed"
      let stE := { st0 with error := some errorMessage }
      let result : TestResult :=
        { id := testId, endpointId := ep.uuid, endpointName := ep.endpoint_name,
          input := sampleInput, output := .null, success := false,
          error := some errorMessage,
          timestamp := now, latencyMs := some (now - startTime),
          tokensInput := .null, tokensOutput := .null }
      let st1 := { stE with testResults := result :: stE.testResults }
      ({ st1 with isLoading := false }, result, true)

/-- Source `clearResults()`: `setTestResults([]); setError(null)`. -/
def clearResults (st : TesterState) : TesterState :=
  { st with testResults := [], error := none }

mutual

/-- A schema is *plain* when it carries no `enum`, `default` or bound
constraints anywhere, its object nodes have pairwise-distinct property
keys (as any JavaScript object does), and every `required` name is a
declared property.  On this class the generator/validator round-trip is
provable; outside it the round-trip fails (see the counterexample for
the round-trip claim). -/
def plainSchema : JsonSchema → Bool
  | .mk _t en df mi ma miL maL it pr rq =>
    en.isNone && !df.isDefined && mi.isNone && ma.isNone && miL.isNone && maL.isNone &&
    (match it with
     | some s => plainSchema s
     | none => true) &&
    (match pr with
     | some props =>
       decide ((props.map Prod.fst).Nodup) &&
       (match rq with
        | some reqs => reqs.all fun r => (props.lookup r).isSome
        | none => true) &&
       plainProps props
     | none => true)

def plainProps : List (String × JsonSchema) → Bool
  | [] => true
  | (_, s) :: rest => plainSchema s && plainProps rest

end

theorem genProps_eq_map (props : List (String × JsonSchema)) :
    genProps props = props.map fun p => (p.1, generateSampleValue p.2) := by
  induction props with
  | nil => rfl
  | cons p rest ih => cases p; simp [genProps, ih]

theorem lookup_genProps (props : List (String × JsonSchema)) (k : String) :
    (genProps props).lookup k = (props.lookup k).map generateSampleValue := by
  induction props with
  | nil => rfl
  | cons p rest ih =>
    cases p with
    | mk k₁ s₁ =>
      by_cases hk : k = k₁
      · subst hk
        simp [genProps, List.lookup]
      · have hb : (k == k₁) = false := beq_eq_false_iff_ne.mpr hk
        simp [genProps, List.lookup, hb, ih]

theorem requiredErrors_of_all (reqs : List String)
    (props : List (String × JsonSchema)) (path : String)
    (h : reqs.all (fun r => (props.lookup r).isSome) = true) :
    requiredErrors (some reqs) (genProps props) path = [] := by
  induction reqs with
  | nil => rfl
  | cons r rest ih =>
    simp only [List.all_cons, Bool.and_eq_true] at h
    obtain ⟨v, hv⟩ := Option.isSome_iff_exists.mp h.1
    simp only [requiredErrors, List.filterMap_cons] at ih ⊢
    rw [lookup_genProps, hv]
    simpa using ih h.2

theorem lookup_of_mem_nodup (props : List (String × JsonSchema)) (k : String)
    (s : JsonSchema) (hnd : (props.map Prod.fst).Nodup)
    (hmem : (k, s) ∈ props) : props.lookup k = some s := by
  induction props with
  | nil => cases hmem
  | cons p rest ih =>
    cases p with
    | mk k₁ s₁ =>
      simp only [List.map_cons, List.nodup_cons] at hnd
      rcases List.mem_cons.mp hmem with h | h
      · cases h
        simp [List.lookup]
      · have hk : k ≠ k₁ := by
          intro he
          subst he
          exact hnd.1 (List.mem_map.mpr ⟨(k, s), h, rfl⟩)
        have hb : (k == k₁) = false := beq_eq_false_iff_ne.mpr hk
        simp [List.lookup, hb, ih hnd.2 h]

mutual

/-- On plain schemas the generated sample validates cleanly; mutual with
the corresponding statement for property lists. -/
theorem plain_roundtrip (s : JsonSchema) (h : plainSchema s = true) (path : String) :
    validateValue (generateSampleValue s) s path = [] := by
  match s with
  | .mk t en df mi ma miL maL it pr rq =>
    rw [plainSchema.eq_def] at h
    simp only [Bool.and_eq_true, Option.isNone_iff_eq_none, Bool.not_eq_true'] at h
    obtain ⟨⟨⟨⟨⟨⟨⟨hen, hdf⟩, hmi⟩, hma⟩, hmiL⟩, hmaL⟩, hit⟩, hpr⟩ := h
    subst hen hmi hma hmiL hmaL
    cases t with
    | string =>
      simp [generateSampleValue, validateValue, stringErrors, JsonSchema.type,
        JsonSchema.minLength, JsonSchema.maxLength, JsonSchema.enum, hdf,
        Js.isNullish]
    | number =>
      simp [generateSampleValue, validateValue, numberErrors, JsonSchema.type,
        JsonSchema.minimum, JsonSchema.maximum, hdf, Js.isNullish]
    | integer =>
      simp [generateSampleValue, validateValue, numberErrors, JsonSchema.type,
        JsonSchema.minimum, JsonSchema.maximum, hdf, Js.isNullish]
    | boolean =>
      cases df <;> simp_all [generateSampleValue, validateValue, JsonSchema.type,
        Js.isNullish, Js.isDefined]
    | array =>
      cases it with
      | none =>
        simp [generateSampleValue, validateValue, JsonSchema.type, JsonSchema.items,
          Js.isNullish]
      | some sub =>
        simp [generateSampleValue, validateValue, validateItems, JsonSchema.type,
          JsonSchema.items, Js.isNullish, plain_roundtrip sub hit]
    | object =>
      cases pr with
      | none =>
        simp [generateSampleValue, validateValue, JsonSchema.type,
          JsonSchema.properties, Js.isNullish]
      | some props =>
        simp only [Bool.and_eq_true, decide_eq_true_eq] at hpr
        obtain ⟨⟨hnd, hrq⟩, hpp⟩ := hpr
        have hprops : validateProps (genProps props) props path = [] :=
          plain_props_roundtrip props props path
            (fun k t hm => lookup_of_mem_nodup props k t hnd hm) hpp
        have hreq : requiredErrors rq (genProps props) path = [] := by
          cases rq with
          | none => rfl
          | some reqs => exact requiredErrors_of_all reqs props path hrq
        simp [generateSampleValue, validateValue, JsonSchema.type,
          JsonSchema.properties, JsonSchema.required, Js.isNullish, hprops, hreq]
    | other =>
      simp [generateSampleValue, validateValue, JsonSchema.type, Js.isNullish]

theorem plain_props_roundtrip (sub props : List (String × JsonSchema)) (path : String)
    (hsub : ∀ k t, (k, t) ∈ sub → props.lookup k = some t)
    (hplain : plainProps sub = true) :
    validateProps (genProps sub) props path = [] := by
  match sub with
  | [] => rfl
  | (k, t) :: rest =>
    simp only [plainProps, Bool.and_eq_true] at hplain
    have hk : props.lookup k = some t := hsub k t (List.mem_cons_self _ _)
    have hrest : validateProps (genProps rest) props path = [] :=
      plain_props_roundtrip rest props path
        (fun k₂ t₂ hm => hsub k₂ t₂ (List.mem_cons_of_mem _ hm)) hplain.2
    simp [genProps, validateProps, hk, hrest,
      plain_roundtrip t hplain.1 (path ++ "." ++ k)]

end

theorem requiredErrors_eq_filter_map (reqs : List String)
    (fields : List (String × Js)) (path : String) :
    requiredErrors (some reqs) fields path =
      (reqs.filter fun r => (fields.lookup r).isNone).map
        (fun r => path ++ ": missing required property \"" ++ r ++ "\"") := by
  induction reqs with
  | nil => rfl
  | cons r rest ih =>
    simp only [requiredErrors] at ih ⊢
    cases hr : fields.lookup r with
    | none => simp [List.filterMap_cons, List.filter_cons, hr, ih]
    | some v => simp [List.filterMap_cons, List.filter_cons, hr, ih]

theorem validateProps_eq_flatten (fields : List (String × Js))
    (props : List (String × JsonSchema)) (path : String) :
    validateProps fields props path =
      (fields.map fun f =>
        match props.lookup f.1 with
        | some ps => validateValue f.2 ps (path ++ "." ++ f.1)
        | none => []).flatten := by
  induction fields with
  | nil => rfl
  | cons f rest ih =>
    cases f
    simp [validateProps, ih]

theorem validateItems_eq_flatten (its : JsonSchema) (path : String) :
    ∀ (xs : List Js) (i : Nat),
      validateItems xs its path i =
        ((List.range' i xs.length).zipWith
          (fun j x => validateValue x its (path ++ "[" ++ toString j ++ "]")) xs).flatten := by
  intro xs
  induction xs with
  | nil => intro i; rfl
  | cons x rest ih =>
    intro i
    rw [List.length_cons, List.range'_succ i rest.length 1]
    simp [validateItems, ih]

/-! Concrete fixtures used by witnesses. -/

/-- The schema literal `{type:"string"}`. -/
def strSchema : JsonSchema := .mk .string none .undefined none none none none none none none

/-- A fresh tester session: empty log, not loading, no standing error. -/
def freshState : TesterState := ⟨[], false, none⟩

/-- An endpoint with no input schema (every input validates). -/
def epNoSchema : Endpoint := ⟨"uuid-1", "summarize", "POST", none⟩

/-- An endpoint whose input schema is `{type:"string"}`. -/
def epStrSchema : Endpoint := ⟨"uuid-1", "summarize", "POST", some strSchema⟩

/-- Claim C1, counterexample: for the schema `{type:"number", maximum:-1}`
the generated sample is `0` (no `default`, no `minimum`), and `0` fails
the schema's own `maximum` check, so the round-trip property does not
hold for every schema. -/
theorem C1_counterexample :
    validateValue
      (generateSampleValue
        (.mk .number none .undefined none (some (-1)) none none none none none))
      (.mk .number none .undefined none (some (-1)) none none none none none)
      "root" = ["root: value 0 exceeds maximum -1"] ∧
    validateValue
      (generateSampleValue
        (.mk .number none .undefined none (some (-1)) none none none none none))
      (.mk .number none .undefined none (some (-1)) none none none none none)
      "root" ≠ [] :=
  ⟨rfl, fun h => nomatch h⟩

/-- Claim C1 (amended): for every *plain* schema — carrying no `enum`,
`default`, `minimum`/`maximum` or `minLength`/`maxLength` anywhere,
with pairwise-distinct property keys and every `required` name a
declared property — validating the generated sample against the schema
yields no errors. -/
theorem C1_plain_roundtrip_root (s : JsonSchema) (h : plainSchema s = true) :
    validateValue (generateSampleValue s) s "root" = [] :=
  plain_roundtrip s h "root"

/-- Witness for the amended C1 at the spec's object scenario schema
`{type:"object", properties:{name:{type:"string"}}, required:["name"]}`. -/
theorem C1_witness :
    plainSchema
      (.mk .object none .undefined none none none none none
        (some [("name", strSchema)]) (some ["name"])) = true ∧
    validateValue
      (generateSampleValue
        (.mk .object none .undefined none none none none none
          (some [("name", strSchema)]) (some ["name"])))
      (.mk .object none .undefined none none none none none
        (some [("name", strSchema)]) (some ["name"])) "root" = [] :=
  ⟨rfl,
    C1_plain_roundtrip_root
      (.mk .object none .undefined none none none none none
        (some [("name", strSchema)]) (some ["name"])) rfl⟩

/-- Claim C2, counterexample: for the success payload `{usage: null}`
the token extraction `response.data.usage.tokens_input` throws a
`TypeError` (member access on `null`), so `testEndpoint` lands in the
catch block and resolves with `success=false` and `output=null` — not,
as the claim states for every success response, `success=true` with
`output` equal to the payload. -/
theorem C2_counterexample :
    (testEndpoint freshState epNoSchema (.obj [])
      (.resolved true (.obj [("usage", .null)]) none) "t1" 0 5
      "Cannot read properties of null").2.1.success = false ∧
    (testEndpoint freshState epNoSchema (.obj [])
      (.resolved true (.obj [("usage", .null)]) none) "t1" 0 5
      "Cannot read properties of null").2.1.output ≠ .obj [("usage", .null)] :=
  ⟨rfl, fun h => nomatch h⟩

/-- Claim C2 (amended): when the input validates and the collaborator
resolves with `success=true` and an object payload whose token
extraction does not throw, the result has `success=true` and `output`
equal to the payload; the token-usage fields are `null` when the
payload has no `usage` member, and are populated from a recognizable
`usage` sub-object when one is present. -/
theorem C2_success_response (st : TesterState) (ep : Endpoint) (input data : Js)
    (err : Option String) (testId : String) (startTime now : Int)
    (faultMsg : String)
    (hval : (validateInput input ep.input_schema).valid = true) :
    (∀ fields, data = .obj fields → fields.lookup "usage" = none →
      (testEndpoint st ep input (.resolved true data err) testId startTime now
          faultMsg).2.1.success = true ∧
      (testEndpoint st ep input (.resolved true data err) testId startTime now
          faultMsg).2.1.output = data ∧
      (testEndpoint st ep input (.resolved true data err) testId startTime now
          faultMsg).2.1.tokensInput = .null ∧
      (testEndpoint st ep input (.resolved true data err) testId startTime now
          faultMsg).2.1.tokensOutput = .null) ∧
    (∀ fields ufs ti tq, data = .obj fields →
      fields.lookup "usage" = some (.obj ufs) →
      ufs.lookup "tokens_input" = some (.num ti) →
      ufs.lookup "tokens_output" = some (.num tq) →
      (testEndpoint st ep input (.resolved true data err) testId startTime now
          faultMsg).2.1.success = true ∧
      (testEndpoint st ep input (.resolved true data err) testId startTime now
          faultMsg).2.1.output = data ∧
      (testEndpoint st ep input (.resolved true data err) testId startTime now
          faultMsg).2.1.tokensInput = .num ti ∧
      (testEndpoint st ep input (.resolved true data err) testId startTime now
          faultMsg).2.1.tokensOutput = .num tq) := by
  constructor
  · intro fields hdata husage
    subst hdata
    refine ⟨?_, ?_, ?_, ?_⟩ <;>
      simp [testEndpoint, hval, usageToken, Js.truthy, Js.inOp, husage]
  · intro fields ufs ti tq hdata husage hti htq
    subst hdata
    refine ⟨?_, ?_, ?_, ?_⟩ <;>
      simp [testEndpoint, hval, usageToken, Js.truthy, Js.inOp, Js.access, husage,
        hti, htq]

/-- Witness for the amended C2: a success response whose payload carries
`usage = {tokens_input: 3, tokens_output: 7}`. -/
theorem C2_witness :
    (testEndpoint freshState epNoSchema (.obj [])
      (.resolved true
        (.obj [("text", .str "ok"),
          ("usage", .obj [("tokens_input", .num 3), ("tokens_output", .num 7)])])
        none) "t1" 0 5 "unused").2.1.success = true ∧
    (testEndpoint freshState epNoSchema (.obj [])
      (.resolved true
        (.obj [("text", .str "ok"),
          ("usage", .obj [("tokens_input", .num 3), ("tokens_output", .num 7)])])
        none) "t1" 0 5 "unused").2.1.output =
      .obj [("text", .str "ok"),
        ("usage", .obj [("tokens_input", .num 3), ("tokens_output", .num 7)])] ∧
    (testEndpoint freshState epNoSchema (.obj [])
      (.resolved true
        (.obj [("text", .str "ok"),
          ("usage", .obj [("tokens_input", .num 3), ("tokens_output", .num 7)])])
        none) "t1" 0 5 "unused").2.1.tokensInput = .num 3 ∧
    (testEndpoint freshState epNoSchema (.obj [])
      (.resolved true
        (.obj [("text", .str "ok"),
          ("usage", .obj [("tokens_input", .num 3), ("tokens_output", .num 7)])])
        none) "t1" 0 5 "unused").2.1.tokensOutput = .num 7 := by
  have h := C2_success_response freshState epNoSchema (.obj [])
    (.obj [("text", .str "ok"),
      ("usage", .obj [("tokens_input", .num 3), ("tokens_output", .num 7)])])
    none "t1" 0 5 "unused" rfl
  exact (h.2 _ [("tokens_input", .num 3), ("tokens_output", .num 7)] 3 7
    rfl rfl rfl rfl)

/-- Claim C3, counterexample: for
`{type:"string", enum:[], default:"d"}` the code returns `enum[0]`, i.e.
`undefined` — a defined-but-empty `enum` is *not* skipped in favour of
`default` as the claim requires. -/
theorem C3_counterexample :
    generateSampleValue
      (.mk .string (some []) (.str "d") none none none none none none none) =
      .undefined ∧
    generateSampleValue
      (.mk .string (some []) (.str "d") none none none none none none none) ≠
      .str "d" :=
  ⟨rfl, fun h => nomatch h⟩

/-- Claim C3 (amended): for a `string` schema, a *defined* `enum`
short-circuits: the sample is its first element, `undefined` when the
sequence is empty (even when `default` is defined); with no `enum`, a
defined `default` (including falsy values) is returned, else the
literal `"sample string"`. -/
theorem C3_string_sample (en : Option (List String)) (df : Js) (mi ma : Option ℚ)
    (miL maL : Option Nat) (it : Option JsonSchema)
    (pr : Option (List (String × JsonSchema))) (rq : Option (List String)) :
    generateSampleValue (.mk .string en df mi ma miL maL it pr rq) =
      match en with
      | some es => (es.head?.map Js.str).getD .undefined
      | none => if df.isDefined then df else .str "sample string" := by
  cases en with
  | none => rfl
  | some es => cases es <;> rfl

/-- Claim C4, counterexample: with `properties` undefined the validator
skips the `required` scan entirely: schema
`{type:"object", required:["name"]}` and value `{}` produce no error,
where the claim requires a missing-required-property error. -/
theorem C4_counterexample :
    validateValue (.obj [])
      (.mk .object none .undefined none none none none none none (some ["name"]))
      "root" = [] ∧
    validateValue (.obj [])
      (.mk .object none .undefined none none none none none none (some ["name"]))
      "root" ≠ ["root: missing required property \"name\""] :=
  ⟨rfl, fun h => nomatch h⟩

/-- Claim C4 (amended): for every `object` schema *with a defined
`properties` mapping* and every non-array object value, the validator
emits exactly one missing-required-property error for each name in
`required` that is not an own key of the value (in declared order,
ahead of the per-property recursive errors). -/
theorem C4_missing_required (fields : List (String × Js))
    (props : List (String × JsonSchema)) (reqs : List String)
    (en : Option (List String)) (df : Js) (mi ma : Option ℚ)
    (miL maL : Option Nat) (it : Option JsonSchema) (path : String) :
    validateValue (.obj fields)
      (.mk .object en df mi ma miL maL it (some props) (some reqs)) path =
      ((reqs.filter fun r => (fields.lookup r).isNone).map
        fun r => path ++ ": missing required property \"" ++ r ++ "\"") ++
      validateProps fields props path := by
  simp [validateValue, JsonSchema.type, JsonSchema.properties, JsonSchema.required,
    Js.isNullish, requiredErrors_eq_filter_map]

/-- Claim C5: when the sample input fails validation against
`endpoint.input_schema`, the collaborator is never invoked and the
result is `success=false`, `output=null`, `latencyMs=null`, token
counts `null`, with the error string
`"Input validation failed: "` followed by the validator messages joined
with `", "`. -/
theorem C5_validation_failure (st : TesterState) (ep : Endpoint) (input : Js)
    (outcome : ExecOutcome) (testId : String) (startTime now : Int)
    (faultMsg : String)
    (h : (validateInput input ep.input_schema).valid = false) :
    (testEndpoint st ep input outcome testId startTime now faultMsg).2.2 = false ∧
    (testEndpoint st ep input outcome testId startTime now faultMsg).2.1.success = false ∧
    (testEndpoint st ep input outcome testId startTime now faultMsg).2.1.output = .null ∧
    (testEndpoint st ep input outcome testId startTime now faultMsg).2.1.latencyMs = none ∧
    (testEndpoint st ep input outcome testId startTime now faultMsg).2.1.tokensInput = .null ∧
    (testEndpoint st ep input outcome testId startTime now faultMsg).2.1.tokensOutput = .null ∧
    (testEndpoint st ep input outcome testId startTime now faultMsg).2.1.error =
      some ("Input validation failed: " ++
        String.intercalate ", " (validateInput input ep.input_schema).errors) := by
  refine ⟨?_, ?_, ?_, ?_, ?_, ?_, ?_⟩ <;> simp [testEndpoint, h]

/-- Witness for C5: the input `1` against the schema `{type:"string"}`. -/
theorem C5_witness :
    (validateInput (.num 1) epStrSchema.input_schema).valid = false ∧
    ((testEndpoint freshState epStrSchema (.num 1) (.resolved true .undefined none)
        "t1" 0 5 "unused").2.2 = false ∧
      (testEndpoint freshState epStrSchema (.num 1) (.resolved true .undefined none)
        "t1" 0 5 "unused").2.1.success = false ∧
      (testEndpoint freshState epStrSchema (.num 1) (.resolved true .undefined none)
        "t1" 0 5 "unused").2.1.latencyMs = none ∧
      (testEndpoint freshState epStrSchema (.num 1) (.resolved true .undefined none)
        "t1" 0 5 "unused").2.1.error =
        some "Input validation failed: root: expected string, got number") := by
  have h := C5_validation_failure freshState epStrSchema (.num 1)
    (.resolved true .undefined none) "t1" 0 5 "unused" rfl
  exact ⟨rfl, h.1, h.2.1, h.2.2.2.1, h.2.2.2.2.2.2⟩

/-- Claim C6: `testEndpoint` always resolves with a result, and when the
collaborator throws the result has `success=false`, `output=null`,
non-null `latencyMs`, and an error equal to the fault's message, or the
fallback `"Test failed"` when the fault carries no message. -/
theorem C6_thrown_fault (st : TesterState) (ep : Endpoint) (input : Js)
    (fault : Option String) (testId : String) (startTime now : Int)
    (faultMsg : String)
    (h : (validateInput input ep.input_schema).valid = true) :
    (∀ outcome, ∃ stf r invoked,
      testEndpoint st ep input outcome testId startTime now faultMsg = (stf, r, invoked)) ∧
    (testEndpoint st ep input (.thrown fault) testId startTime now faultMsg).2.1.success
        = false ∧
    (testEndpoint st ep input (.thrown fault) testId startTime now faultMsg).2.1.output
        = .null ∧
    (testEndpoint st ep input (.thrown fault) testId startTime now faultMsg).2.1.latencyMs
        = some (now - startTime) ∧
    (testEndpoint st ep input (.thrown fault) testId startTime now faultMsg).2.1.error
        = some (fault.getD "Test failed") := by
  refine ⟨fun outcome => ⟨_, _, _, rfl⟩, ?_, ?_, ?_, ?_⟩ <;> simp [testEndpoint, h]

/-- Witness for C6: a non-`Error` throw (no message) after a trivially
valid input. -/
theorem C6_witness :
    (∀ outcome, ∃ stf r invoked,
      testEndpoint freshState epNoSchema (.obj []) outcome "t1" 2 9 "unused" =
        (stf, r, invoked)) ∧
    (testEndpoint freshState epNoSchema (.obj []) (.thrown none) "t1" 2 9 "unused").2.1.success
        = false ∧
    (testEndpoint freshState epNoSchema (.obj []) (.thrown none) "t1" 2 9 "unused").2.1.output
        = .null ∧
    (testEndpoint freshState epNoSchema (.obj []) (.thrown none) "t1" 2 9 "unused").2.1.latencyMs
        = some 7 ∧
    (testEndpoint freshState epNoSchema (.obj []) (.thrown none) "t1" 2 9 "unused").2.1.error
        = some "Test failed" :=
  C6_thrown_fault freshState epNoSchema (.obj []) none "t1" 2 9 "unused" rfl

/-- Claim C7: on every path of `testEndpoint` the computed result is
prepended to the result log, the loading flag is `true` at entry
(`testStart`), and it is cleared by the time the call completes. -/
theorem C7_prepend_and_loading (st : TesterState) (ep : Endpoint) (input : Js)
    (outcome : ExecOutcome) (testId : String) (startTime now : Int)
    (faultMsg : String) :
    (testStart st).isLoading = true ∧
    (testEndpoint st ep input outcome testId startTime now faultMsg).1.testResults =
      (testEndpoint st ep input outcome testId startTime now faultMsg).2.1 ::
        st.testResults ∧
    (testEndpoint st ep input outcome testId startTime now
        faultMsg).1.isLoading = false := by
  by_cases hv : (validateInput input ep.input_schema).valid
  · cases outcome with
    | resolved success data err =>
      refine ⟨rfl, ?_, ?_⟩ <;>
      · rcases h1 : usageToken success data "tokens_input" with e | ti <;>
          rcases h2 : usageToken success data "tokens_output" with e2 | tq <;>
            simp [testEndpoint, testStart, hv, h1, h2]
    | thrown fault =>
      refine ⟨rfl, ?_, ?_⟩ <;> simp [testEndpoint, testStart, hv]
  · cases outcome <;>
      (refine ⟨rfl, ?_, ?_⟩ <;> simp [testEndpoint, testStart, hv])

/-- Claim C8: validator error ordering — missing-required errors (in
declared order) precede per-property recursive errors (in the value's
own key order); array element errors appear in index order; and the
`[1, -1, "x"]` against `{type:"array", items:{type:"number", minimum:0}}`
scenario yields exactly the two expected messages in order. -/
theorem C8_error_ordering :
    (∀ (fields : List (String × Js)) (props : List (String × JsonSchema))
      (reqs : List String) (en : Option (List String)) (df : Js) (mi ma : Option ℚ)
      (miL maL : Option Nat) (it : Option JsonSchema) (path : String),
      validateValue (.obj fields)
        (.mk .object en df mi ma miL maL it (some props) (some reqs)) path =
        (reqs.filterMap fun r =>
          if (fields.lookup r).isSome then none
          else some (path ++ ": missing required property \"" ++ r ++ "\"")) ++
        (fields.map fun f =>
          match props.lookup f.1 with
          | some ps => validateValue f.2 ps (path ++ "." ++ f.1)
          | none => []).flatten) ∧
    (∀ (xs : List Js) (its : JsonSchema) (en : Option (List String)) (df : Js)
      (mi ma : Option ℚ) (miL maL : Option Nat)
      (pr : Option (List (String × JsonSchema))) (rq : Option (List String))
      (path : String),
      validateValue (.arr xs)
        (.mk .array en df mi ma miL maL (some its) pr rq) path =
        ((List.range xs.length).zipWith
          (fun j x => validateValue x its (path ++ "[" ++ toString j ++ "]"))
          xs).flatten) ∧
    validateValue (.arr [.num 1, .num (-1), .str "x"])
      (.mk .array none .undefined none none none none
        (some (.mk .number none .undefined (some 0) none none none none none none))
        none none) "root" =
      ["root[1]: value -1 is less than minimum 0",
        "root[2]: expected number, got string"] := by
  refine ⟨?_, ?_, rfl⟩
  · intro fields props reqs en df mi ma miL maL it path
    simp [validateValue, JsonSchema.type, JsonSchema.properties,
      JsonSchema.required, Js.isNullish, requiredErrors, validateProps_eq_flatten]
  · intro xs its en df mi ma miL maL pr rq path
    simp [validateValue, JsonSchema.type, JsonSchema.items, Js.isNullish,
      validateItems_eq_flatten, List.range_eq_range']

/-- Claim C9: a `null` or `undefined` value validates against every
schema at every path with no errors, regardless of the schema's type,
constraints or `required` status at that level. -/
theorem C9_nullish_always_valid (schema : JsonSchema) (path : String) :
    validateValue .null schema path = [] ∧
    validateValue .undefined schema path = [] := by
  constructor <;>
  · match schema with
    | .mk t en df mi ma miL maL it pr rq =>
      cases t <;> simp [validateValue, JsonSchema.type, Js.isNullish]

/-- Claim C10: `clearResults` empties the result log and clears the
standing error while leaving the loading flag exactly as it was. -/
theorem C10_clearResults_frame (st : TesterState) :
    (clearResults st).testResults = [] ∧
    (clearResults st).error = none ∧
    (clearResults st).isLoading = st.isLoading :=
  ⟨rfl, rfl, rfl⟩

end Shapeshyft
